import Mathlib

/-!
Verification of the OneSong audio core (src/main.py) against its
natural-language specification.

The embedding below translates the relevant Python functions into Lean:

* Python floats are idealised as exact numbers: timestamps (which the source
  computes with rational arithmetic only: `i * hop / sr`, `i / 60`,
  `round(x, 4)`) are modelled as `ℚ`; feature values (which pass through
  `tanh` / `sin`) are modelled as `ℝ`.
* `round(x, 4)` / `round(x, 2)` (Python round-half-to-even) is modelled by
  `round4q` on `ℚ` and `roundN` on `ℝ`.
* External child processes and external library calls (yt-dlp, ffmpeg,
  Essentia algorithms) are inputs to the model: their outcomes are fields of
  environment structures, and per-frame Essentia measurements are the
  `FrameMeas` inputs of the frame loop.
* Stateful pieces (the module-level `_analysis_cache` dict) are explicit
  state passed through `audio_analysis`.
-/

namespace OneSong

/-! ## Rounding: model of Python `round(x, ndigits)` (round-half-to-even) -/

/-- Round a rational to the nearest integer, ties to even
(the semantics of Python `round`). -/
def rheQ (x : ℚ) : ℤ :=
  if Int.fract x = 1/2 then (if ⌊x⌋ % 2 = 0 then ⌊x⌋ else ⌊x⌋ + 1) else round x

/-- Model of Python `round(x, 4)` on rationals (used for timestamps). -/
def round4q (x : ℚ) : ℚ := rheQ (x * 10000) / 10000

/-- Round a real to the nearest integer, ties to even
(the semantics of Python `round`). -/
noncomputable def rheR (x : ℝ) : ℤ :=
  if Int.fract x = 1/2 then (if ⌊x⌋ % 2 = 0 then ⌊x⌋ else ⌊x⌋ + 1) else round x

/-- Model of Python `round(x, n)` on reals (used for feature values). -/
noncomputable def roundN (n : ℕ) (x : ℝ) : ℝ := rheR (x * 10 ^ n) / 10 ^ n

/-- Model of Python `round(x, 4)` on reals. -/
noncomputable def round4r (x : ℝ) : ℝ := roundN 4 x

/-! ## FeatureTimeline data model (source: return dicts of
`_analyze_with_essentia` and `_fallback_analysis`, src/main.py 325-332,
358-362) -/

/-- One `{t, v}` loudness record. -/
structure LoudRecord where
  t : ℚ
  v : ℝ

/-- One `{t, c}` spectral-centroid record. -/
structure SpecRecord where
  t : ℚ
  c : ℝ

/-- One `{t, bands}` mel-band record. -/
structure MelRecord where
  t : ℚ
  bands : List ℝ

/-- One `{t, b}` bass record. -/
structure BassRecord where
  t : ℚ
  b : ℝ

/-- The FeatureTimeline: the dict returned by both analysis paths. -/
structure Timeline where
  tempo : ℝ
  beats : List ℝ
  loudness : List LoudRecord
  spectral : List SpecRecord
  melbands : List MelRecord
  bass : List BassRecord

/-! ## Real analysis path: `_analyze_with_essentia` (src/main.py 274-332) -/

/-- The per-frame measurements delivered by the external Essentia
algorithms (`es.Loudness`, `es.Spectrum`+centroid, `es.MelBands`):
inputs of the frame loop, not computed by the repository code. -/
structure FrameMeas where
  loudDb : ℝ
  centHz : ℝ
  mels : List ℝ

/-- Modelled from the spec: `es.SpectralCentroidNormalized` is an external
Essentia backend absent from src/; per spec §4.4 it is "a spectral centroid
in Hz, normalized into [0,1] by dividing by the Nyquist frequency and
clamping" (Nyquist = 22050/2 = 11025). -/
noncomputable def spectralCentroidNormalized (hz : ℝ) : ℝ :=
  min 1 (max 0 (hz / 11025))

/-- Model of `float(np.tanh(max(0.0, (loud_db + 60) / 60)))` (src/main.py 313). -/
noncomputable def loudNormRaw (db : ℝ) : ℝ :=
  Real.tanh (max 0 ((db + 60) / 60))

/-- Model of `float(np.tanh(max(0.0, (v + 80) / 80)))` for one mel band
(src/main.py 317). -/
noncomputable def melNormRaw (v : ℝ) : ℝ :=
  Real.tanh (max 0 ((v + 80) / 80))

/-- Model of `np.mean` of a list of floats. -/
noncomputable def listMean (l : List ℝ) : ℝ := l.sum / l.length

/-- Timestamp of the i-th analysis frame: `t = i * hop_size / sr` with
`hop_size = int(22050 / 60) = 367`, stored as `round(t, 4)`
(src/main.py 295, 311, 320-323). -/
def essT (i : ℕ) : ℚ := round4q ((i * 367) / 22050)

/-- The four per-hop record lists built by one frame loop. -/
structure Channels where
  loudness : List LoudRecord
  spectral : List SpecRecord
  melbands : List MelRecord
  bass : List BassRecord

/-- The frame loop of `_analyze_with_essentia` (src/main.py 306-323):
`for i, frame in enumerate(es.FrameGenerator(...))` appends one record per
channel per frame; `k` is the index of the first remaining frame. -/
noncomputable def essFrames : ℕ → List FrameMeas → Channels
  | _, [] => ⟨[], [], [], []⟩
  | k, f :: fs =>
    let rest := essFrames (k + 1) fs
    { loudness := ⟨essT k, round4r (loudNormRaw f.loudDb)⟩ :: rest.loudness
      spectral := ⟨essT k, round4r (spectralCentroidNormalized f.centHz)⟩ :: rest.spectral
      melbands := ⟨essT k, f.mels.map (fun v => round4r (melNormRaw v))⟩ :: rest.melbands
      bass := ⟨essT k, round4r (listMean ((f.mels.map melNormRaw).take 2))⟩ :: rest.bass }

/-- The whole-track outputs of the external `RhythmExtractor2013` plus the
per-frame measurements: everything `_analyze_with_essentia` receives from
Essentia on a successful run. -/
structure EssentiaRun where
  frames : List FrameMeas
  bpm : ℝ
  beats : List ℝ

/-- The timeline assembled by `_analyze_with_essentia` on success
(src/main.py 325-332): `tempo = round(bpm, 2)`, beats rounded to 4 places,
and the four channels of the frame loop. -/
noncomputable def analyzeFrames (run : EssentiaRun) : Timeline :=
  let ch := essFrames 0 run.frames
  { tempo := roundN 2 run.bpm
    beats := run.beats.map round4r
    loudness := ch.loudness
    spectral := ch.spectral
    melbands := ch.melbands
    bass := ch.bass }

/-- Model of `_analyze_with_essentia` (src/main.py 274-332) as a fallible function:
raises (`.error`) when Essentia or NumPy is unavailable (line 280-281),
when the WAV file exceeds the 45 MB OOM guard (lines 283-285), or when any
Essentia call raises (`raises`); otherwise returns the assembled timeline. -/
noncomputable def analyze_with_essentia (essAvail numpyAvail : Bool)
    (wavSizeMB : ℚ) (raises : Bool) (run : EssentiaRun) :
    Except Unit Timeline :=
  if !essAvail || !numpyAvail then .error ()
  else if 45 < wavSizeMB then .error ()
  else if raises then .error ()
  else .ok (analyzeFrames run)

/-! ## Synthetic path: `_fallback_analysis` (src/main.py 335-362) -/

/-- Model of `round(0.5 + 0.35*sin(t*0.8) + 0.15*sin(t*3.1), 4)` (src/main.py 349). -/
noncomputable def fbLoudV (t : ℝ) : ℝ :=
  round4r (1/2 + (35/100) * Real.sin (t * (8/10)) + (15/100) * Real.sin (t * (31/10)))

/-- Model of `round(0.4 + 0.3*sin(t*0.5 + 1.2), 4)` (src/main.py 350). -/
noncomputable def fbSpecC (t : ℝ) : ℝ :=
  round4r (4/10 + (3/10) * Real.sin (t * (5/10) + 12/10))

/-- Model of `round(0.3 + 0.25*abs(sin(t*pi*2.0)), 4)` (src/main.py 351). -/
noncomputable def fbBassB (t : ℝ) : ℝ :=
  round4r (3/10 + (25/100) * |Real.sin (t * Real.pi * 2)|)

/-- Model of `round(0.2 + 0.2*sin(t*(0.4 + k*0.15) + k), 4)` (src/main.py 352). -/
noncomputable def fbBand (t : ℝ) (k : ℕ) : ℝ :=
  round4r (2/10 + (2/10) * Real.sin (t * (4/10 + k * (15/100)) + k))

/-- Model of `_fallback_analysis(duration_estimate)` (src/main.py 335-362): tempo
120, beats every 0.5 s (`int(duration / 0.5)` of them), and
`int(duration * 60)` records per channel at `t = i / 60`, each value a
closed-form sinusoid; every stored number passes through `round(x, 4)`. -/
noncomputable def fallback_analysis (d : ℚ) : Timeline :=
  { tempo := 120
    beats := (List.range (⌊d * 2⌋).toNat).map (fun i : ℕ => round4r (i * (1/2)))
    loudness := (List.range (⌊d * 60⌋).toNat).map
      (fun i : ℕ => ⟨round4q (i / 60), fbLoudV (i / 60)⟩)
    spectral := (List.range (⌊d * 60⌋).toNat).map
      (fun i : ℕ => ⟨round4q (i / 60), fbSpecC (i / 60)⟩)
    melbands := (List.range (⌊d * 60⌋).toNat).map
      (fun i : ℕ => ⟨round4q (i / 60), (List.range 8).map (fbBand (i / 60))⟩)
    bass := (List.range (⌊d * 60⌋).toNat).map
      (fun i : ℕ => ⟨round4q (i / 60), fbBassB (i / 60)⟩) }

/-! ## SourceResolver: `extract_youtube_id` (src/main.py 165-175) and its
caller `save_song` (src/main.py 532-536) -/

/-- The character class `[0-9A-Za-z_-]` of the extraction patterns. -/
def ytChar (c : Char) : Bool := c.isAlphanum || c == '_' || c == '-'

/-- Capture group `([0-9A-Za-z_-]{11})`: succeeds when at least 11
characters remain and the next 11 are all in the class. -/
def take11Ok (s : List Char) : Option (List Char) :=
  if (s.take 11).length = 11 && (s.take 11).all ytChar
  then some (s.take 11) else none

/-- Whether the input starts with `=`. -/
def headIsEq : List Char → Bool
  | [] => false
  | c :: _ => c == '='

/-- Whether the input contains a `/` anywhere. -/
def hasSlash : List Char → Bool
  | [] => false
  | c :: t => c == '/' || hasSlash t

/-- Whether the input contains the adjacent pair `v=` anywhere. A raw
identifier — a bare token rather than a URL — contains neither a slash nor
`v=`, so none of the four extraction patterns can fire on it. -/
def hasVEq : List Char → Bool
  | [] => false
  | c :: t => (c == 'v' && headIsEq t) || hasVEq t

/-- One attempt of pattern 1 `(?:v=|\/)([0-9A-Za-z_-]{11})` at a fixed
position: the alternation tries the literal `v=` first, then `/`; after
`v=` the capture starts one character later. -/
def matchP1At (s : List Char) : Option (List Char) :=
  match s with
  | [] => none
  | c :: rest =>
    if c == 'v' && headIsEq rest then take11Ok (rest.drop 1)
    else if c == '/' then take11Ok rest
    else none

/-- Whether `lit` is an initial segment of `s`. -/
def startsWithLit : List Char → List Char → Bool
  | [], _ => true
  | _ :: _, [] => false
  | a :: as, b :: bs => a == b && startsWithLit as bs

/-- One attempt of a literal-prefixed pattern (`embed/`, `youtu\.be/`,
`shorts/`) at a fixed position. -/
def matchLitAt (lit : List Char) (s : List Char) : Option (List Char) :=
  if startsWithLit lit s then take11Ok (s.drop lit.length) else none

/-- Model of `re.search` for one of the patterns above: leftmost position whose
attempt succeeds. -/
def reSearch (f : List Char → Option (List Char)) : List Char → Option (List Char)
  | [] => none
  | c :: rest =>
    match f (c :: rest) with
    | some v => some v
    | none => reSearch f rest

/-- Model of `extract_youtube_id` (src/main.py 165-175): try the four patterns in
order over the whole input, returning the first capture. -/
def extract_youtube_id (url : List Char) : Option (List Char) :=
  match reSearch matchP1At url with
  | some v => some v
  | none =>
    match reSearch (matchLitAt ("embed/".toList)) url with
    | some v => some v
    | none =>
      match reSearch (matchLitAt ("youtu.be/".toList)) url with
      | some v => some v
      | none => reSearch (matchLitAt ("shorts/".toList)) url

/-- The resolving step of `save_song` (src/main.py 532-536): a failed
extraction raises `HTTPException(400, "Invalid YouTube URL")`; a successful
one yields the video id. -/
def save_song (url : List Char) : Except ℕ (List Char) :=
  match extract_youtube_id url with
  | none => .error 400
  | some vid => .ok vid

/-! ## Acquirer: `_download_audio` (src/main.py 237-271) -/

/-- The exact yt-dlp invocation built by `_download_audio`
(src/main.py 248-261). -/
def downloadArgs (youtubeId out : List Char) : List (List Char) :=
  [ "yt-dlp".toList
  , "https://www.youtube.com/watch?v=".toList ++ youtubeId
  , "--extract-audio".toList
  , "--audio-format".toList, "wav".toList
  , "--audio-quality".toList, "5".toList
  , "--postprocessor-args".toList, "ffmpeg:-ar 22050 -ac 1".toList
  , "--output".toList, out
  , "--no-playlist".toList
  , "--no-cache-dir".toList
  , "--no-check-certificates".toList
  , "--quiet".toList
  , "--max-filesize".toList, "50m".toList ]

/-- What the yt-dlp child process did: exceeded the 120 s wall clock, threw
before completing, or completed with an exit code and an output file that
does or does not exist. -/
inductive ChildOutcome where
  | timedOut
  | raised
  | completed (rc : ℤ) (outExists : Bool)
deriving DecidableEq

/-- Model of `_download_audio` (src/main.py 237-271): returns `False` when yt-dlp is
not on PATH, on timeout, or on any exception; otherwise
`returncode == 0 and Path(out_path).exists()`. The declared duration of the
source is never consulted. -/
def download_audio (ytdlpPresent : Bool) (child : ChildOutcome) : Bool :=
  if ytdlpPresent then
    match child with
    | .completed rc outExists => rc == 0 && outExists
    | _ => false
  else false

/-- A remote source as the acquisition layer sees it: the duration its
metadata declares, and the behaviour the yt-dlp child exhibits when told to
download it. -/
structure SourceMeta where
  declaredDurationS : ℚ
  child : ChildOutcome

/-- The accept/reject decision of the acquirer for a source: `_download_audio`
receives only the id and the output path, so the decision can depend only
on the presence of yt-dlp and on what the child process did — the declared
duration is not an input of the code. -/
def acquire (ytdlpPresent : Bool) (src : SourceMeta) : Bool :=
  download_audio ytdlpPresent src.child

/-! ## StreamingEndpoint: `stream_audio` and `audio_generator`
(src/main.py 700-819) -/

/-- The strict id check of `/stream` (src/main.py 725):
`re.match` of the pattern `^[a-zA-Z0-9_\-]{11}$` on `youtube_id`. Note Python `$` also
matches just before one final newline, so an 11-character match followed by
a single trailing newline passes too. -/
def validFormat (s : List Char) : Bool :=
  (s.length == 11 && s.all ytChar)
    || (s.length == 12 && (s.take 11).all ytChar && s.getLast? == some '\n')

/-- The `_EXT_TO_MIME` table (src/main.py 123-132). -/
def extToMime : List (List Char × List Char) :=
  [ ("webm".toList, "audio/webm".toList)
  , ("m4a".toList, "audio/mp4".toList)
  , ("mp4".toList, "audio/mp4".toList)
  , ("aac".toList, "audio/aac".toList)
  , ("mp3".toList, "audio/mpeg".toList)
  , ("ogg".toList, "audio/ogg".toList)
  , ("opus".toList, "audio/ogg; codecs=opus".toList)
  , ("wav".toList, "audio/wav".toList) ]

/-- Model of `_probe_stream_mime` (src/main.py 207-231): on any probe failure (or an
unknown extension) the fallback MIME `audio/webm` is used. `probed` is the
extension printed by the external probe, `none` when the probe failed. -/
def probeStreamMime (ytdlpPresent : Bool) (probed : Option (List Char)) : List Char :=
  if !ytdlpPresent then "audio/webm".toList
  else
    match probed with
    | none => "audio/webm".toList
    | some ext =>
      match (extToMime.find? (fun p => p.1 == ext)).map (·.2) with
      | some mime => mime
      | none => "audio/webm".toList

/-- Outcome of the first `proc.stdout.read(65536)` under
`asyncio.wait_for(..., 12.0)`: the 12 s window elapsed with no data, or a
chunk arrived (an empty chunk means yt-dlp exited with no output). -/
inductive FirstRead where
  | timedOut
  | got (chunk : List ℕ)
deriving DecidableEq

/-- Everything the yt-dlp stream child does, as observed through reads. -/
structure StreamEnv where
  tokenValid : Bool
  ytdlpPresent : Bool
  probed : Option (List Char)
  firstRead : FirstRead
  rest : List (List ℕ)

/-- Model of `audio_generator` (src/main.py 752-804): on first-chunk timeout or an
immediately-empty first read it `return`s, yielding nothing; otherwise it
yields the first chunk and then every later read until an empty read. -/
def audio_generator (fr : FirstRead) (rest : List (List ℕ)) : List (List ℕ) :=
  match fr with
  | .timedOut => []
  | .got c => if c = [] then [] else c :: rest.takeWhile (fun x => x ≠ [])

/-- What the `/stream` route hands back to the HTTP layer. -/
inductive StreamResult where
  | response (status : ℕ) (mime : List Char) (body : List (List ℕ))
  | redirect (status : ℕ)
  | httpError (status : ℕ)
deriving DecidableEq

/-- Model of `stream_audio` (src/main.py 700-819): 401 on missing/invalid token, 400
on an id failing the strict pattern, 302 redirect when yt-dlp is absent,
otherwise a `StreamingResponse` — whose status is its default, 200 —
wrapping `audio_generator`. -/
def stream_audio (env : StreamEnv) (youtubeId : List Char) : StreamResult :=
  if !env.tokenValid then .httpError 401
  else if !validFormat youtubeId then .httpError 400
  else if !env.ytdlpPresent then .redirect 302
  else .response 200 (probeStreamMime env.ytdlpPresent env.probed)
    (audio_generator env.firstRead env.rest)

/-! ## AnalysisCache and the `/audio_analysis` orchestration
(src/main.py 115, 630-693) -/

/-- The module-level `_analysis_cache` dict, keyed by the raw id string. -/
def Cache := List (String × Timeline)

/-- Model of `vid in _analysis_cache` and of `_analysis_cache[vid]`. -/
def cacheLookup (c : Cache) (k : String) : Option Timeline :=
  match c with
  | [] => none
  | (k', v) :: rest => if k' = k then some v else cacheLookup rest k

/-- Model of the insertion `_analysis_cache[vid] = result`. -/
def cacheInsert (c : Cache) (k : String) (v : Timeline) : Cache := (k, v) :: c

/-- Outcome of the DB lookup in `audio_analysis` (src/main.py 640-653):
the connection/query can raise (caught and logged), the row can be absent,
or present with a possibly-NULL `youtube_video_id`. -/
inductive DbOutcome where
  | raised
  | noRow
  | row (vid : Option String)

/-- Everything outside the repository code that `audio_analysis` interacts
with on one request: backend availability, the DB, the yt-dlp child, the
size of the downloaded file, and the behaviour of Essentia. -/
structure AnalysisEnv where
  essentiaAvailable : Bool
  numpyAvailable : Bool
  ytdlpPresent : Bool
  db : DbOutcome
  child : ChildOutcome
  wavSizeMB : ℚ
  essentiaRaises : Bool
  run : EssentiaRun

/-- The id the DB path yields (src/main.py 640-653): `None` when the
lookup raises, finds no row, or the stored id is NULL. -/
def dbVid (db : DbOutcome) : Option String :=
  match db with
  | .row v => v
  | _ => none

/-- Resolution of `vid` (src/main.py 637-657): the query parameter wins
when non-empty (Python truthiness), else the DB value; an empty or missing
result selects the no-source branch. -/
def resolveVid (param : Option String) (db : Option String) : Option String :=
  let p := match param with
    | some s => if s = "" then db else some s
    | none => db
  match p with
  | some s => if s = "" then none else some s
  | none => none

/-- What one `/audio_analysis` request (past authentication) produces:
the HTTP-level result, the cache afterwards, the id handed to
`_download_audio` (if it was invoked), and whether a timeline was computed
on this request (as opposed to served from the cache). -/
structure AnalysisResponse where
  result : Except ℕ Timeline
  cacheOut : Cache
  downloadedId : Option String
  computed : Bool

/-- Whether the handler returned a timeline (vs raising an HTTP error). -/
def resultOk : Except ℕ Timeline → Bool
  | .ok _ => true
  | .error _ => false

/-- Model of `audio_analysis` (src/main.py 630-693), after authentication:
resolve the id (param over DB), serve a cache hit verbatim, otherwise —
when Essentia, NumPy and yt-dlp are all present — download and analyze,
caching a successful result; every failure (absent id, download failure,
analysis exception, missing backend) falls through to
`_fallback_analysis()`, which is cached under the id when one exists. -/
noncomputable def audio_analysis (env : AnalysisEnv) (param : Option String)
    (cache : Cache) : AnalysisResponse :=
  match resolveVid param (dbVid env.db) with
  | none => ⟨.ok (fallback_analysis 240), cache, none, true⟩
  | some vid =>
    match cacheLookup cache vid with
    | some r => ⟨.ok r, cache, none, false⟩
    | none =>
      if env.essentiaAvailable && env.numpyAvailable && env.ytdlpPresent then
        if download_audio env.ytdlpPresent env.child then
          match analyze_with_essentia env.essentiaAvailable env.numpyAvailable
              env.wavSizeMB env.essentiaRaises env.run with
          | .ok result => ⟨.ok result, cacheInsert cache vid result, some vid, true⟩
          | .error _ =>
            ⟨.ok (fallback_analysis 240),
              cacheInsert cache vid (fallback_analysis 240), some vid, true⟩
        else
          ⟨.ok (fallback_analysis 240),
            cacheInsert cache vid (fallback_analysis 240), some vid, true⟩
      else
        ⟨.ok (fallback_analysis 240),
          cacheInsert cache vid (fallback_analysis 240), none, true⟩

/-- The backend-availability gate of src/main.py line 665. -/
def backendsPresent (env : AnalysisEnv) : Bool :=
  env.essentiaAvailable && env.numpyAvailable && env.ytdlpPresent

/-! ## Helper lemmas: rounding stays inside `[0, 1]` -/

lemma rheR_nonneg {x : ℝ} (hx : 0 ≤ x) : 0 ≤ rheR x := by
  unfold rheR
  split
  · split
    · exact Int.floor_nonneg.mpr hx
    · have := Int.floor_nonneg.mpr hx
      omega
  · rw [round_eq]
    exact Int.floor_nonneg.mpr (by linarith)

lemma rheR_le {x : ℝ} {n : ℤ} (h : x ≤ n) : rheR x ≤ n := by
  unfold rheR
  split
  · rename_i htie
    have hx : x = (⌊x⌋ : ℝ) + 1/2 := by
      have := Int.self_sub_floor x
      rw [htie] at this
      linarith
    have hfl : (⌊x⌋ : ℝ) + 1/2 ≤ (n : ℝ) := by rw [← hx]; exact h
    have hlt : ⌊x⌋ < n := by
      have hr : (⌊x⌋ : ℝ) < (n : ℝ) := by linarith
      exact_mod_cast hr
    split
    · omega
    · omega
  · rw [round_eq]
    have : ⌊x + 1/2⌋ ≤ ⌊(n : ℝ) + 1/2⌋ := Int.floor_le_floor (by linarith)
    have hn : ⌊(n : ℝ) + 1/2⌋ = n := by
      rw [Int.floor_eq_iff]
      constructor
      · linarith
      · linarith
    omega

lemma roundN_nonneg {n : ℕ} {x : ℝ} (hx : 0 ≤ x) : 0 ≤ roundN n x := by
  unfold roundN
  have h10 : (0 : ℝ) < 10 ^ n := by positivity
  have := rheR_nonneg (x := x * 10 ^ n) (by positivity)
  have : (0 : ℝ) ≤ (rheR (x * 10 ^ n) : ℝ) := by exact_mod_cast this
  positivity

lemma roundN_le_one {n : ℕ} {x : ℝ} (hx : x ≤ 1) : roundN n x ≤ 1 := by
  unfold roundN
  have h10 : (0 : ℝ) < 10 ^ n := by positivity
  have hle : x * 10 ^ n ≤ ((10 ^ n : ℤ) : ℝ) := by
    push_cast
    nlinarith
  have := rheR_le hle
  have hcast : (rheR (x * 10 ^ n) : ℝ) ≤ ((10 ^ n : ℤ) : ℝ) := by exact_mod_cast this
  rw [div_le_one h10]
  push_cast at hcast ⊢
  linarith

lemma round4r_mem_unit {x : ℝ} (h0 : 0 ≤ x) (h1 : x ≤ 1) :
    0 ≤ round4r x ∧ round4r x ≤ 1 :=
  ⟨roundN_nonneg h0, roundN_le_one h1⟩

/-! ## Helper lemmas: the raw normalizations land in `[0, 1]` -/

lemma tanh_nonneg_of_nonneg {x : ℝ} (hx : 0 ≤ x) : 0 ≤ Real.tanh x := by
  rw [Real.tanh_eq_sinh_div_cosh]
  exact div_nonneg (Real.sinh_nonneg_iff.mpr hx) (Real.cosh_pos x).le

lemma tanh_lt_one (x : ℝ) : Real.tanh x < 1 := by
  rw [Real.tanh_eq_sinh_div_cosh, div_lt_one (Real.cosh_pos x)]
  nlinarith [Real.cosh_sq_sub_sinh_sq x, Real.cosh_pos x,
    sq_nonneg (Real.sinh x + Real.cosh x), sq_nonneg (Real.sinh x - Real.cosh x)]

lemma loudNormRaw_mem_unit (db : ℝ) : 0 ≤ loudNormRaw db ∧ loudNormRaw db ≤ 1 :=
  ⟨tanh_nonneg_of_nonneg (le_max_left 0 _), (tanh_lt_one _).le⟩

lemma melNormRaw_mem_unit (v : ℝ) : 0 ≤ melNormRaw v ∧ melNormRaw v ≤ 1 :=
  ⟨tanh_nonneg_of_nonneg (le_max_left 0 _), (tanh_lt_one _).le⟩

lemma spectralCentroidNormalized_mem_unit (hz : ℝ) :
    0 ≤ spectralCentroidNormalized hz ∧ spectralCentroidNormalized hz ≤ 1 := by
  unfold spectralCentroidNormalized
  constructor
  · exact le_min (by norm_num) (le_max_left 0 _)
  · exact min_le_left 1 _

lemma listMean_mem_unit {l : List ℝ} (h : ∀ x ∈ l, 0 ≤ x ∧ x ≤ 1) :
    0 ≤ listMean l ∧ listMean l ≤ 1 := by
  unfold listMean
  rcases l with _ | ⟨a, l⟩
  · simp
  · have hlen : (0 : ℝ) < ((a :: l).length : ℝ) := by
      have hp : 0 < (a :: l).length := Nat.succ_pos _
      exact_mod_cast hp
    have hsum0 : 0 ≤ (a :: l).sum := List.sum_nonneg fun x hx => (h x hx).1
    have hsum1 : (a :: l).sum ≤ ((a :: l).length : ℝ) := by
      have := List.sum_le_card_nsmul (a :: l) 1 fun x hx => (h x hx).2
      simpa using this
    exact ⟨div_nonneg hsum0 hlen.le, by rw [div_le_one hlen]; exact hsum1⟩

/-! ## Helper lemmas: structure of the frame loop -/

lemma essFrames_lengths (k : ℕ) (fs : List FrameMeas) :
    (essFrames k fs).loudness.length = fs.length ∧
    (essFrames k fs).spectral.length = fs.length ∧
    (essFrames k fs).melbands.length = fs.length ∧
    (essFrames k fs).bass.length = fs.length := by
  induction fs generalizing k with
  | nil => simp [essFrames]
  | cons f fs ih =>
    obtain ⟨h1, h2, h3, h4⟩ := ih (k + 1)
    simp [essFrames, h1, h2, h3, h4]

lemma essFrames_loudness_t (fs : List FrameMeas) :
    ∀ (k i : ℕ) (h : i < (essFrames k fs).loudness.length),
      ((essFrames k fs).loudness.get ⟨i, h⟩).t = essT (k + i) := by
  induction fs with
  | nil => intro k i h; simp [essFrames] at h
  | cons f fs ih =>
    intro k i h
    cases i with
    | zero => simp [essFrames]
    | succ j =>
      have := ih (k + 1) j (by simpa [essFrames] using h)
      simpa [essFrames, Nat.add_assoc, Nat.add_comm 1 j] using this

lemma essFrames_spectral_t (fs : List FrameMeas) :
    ∀ (k i : ℕ) (h : i < (essFrames k fs).spectral.length),
      ((essFrames k fs).spectral.get ⟨i, h⟩).t = essT (k + i) := by
  induction fs with
  | nil => intro k i h; simp [essFrames] at h
  | cons f fs ih =>
    intro k i h
    cases i with
    | zero => simp [essFrames]
    | succ j =>
      have := ih (k + 1) j (by simpa [essFrames] using h)
      simpa [essFrames, Nat.add_assoc, Nat.add_comm 1 j] using this

lemma essFrames_melbands_t (fs : List FrameMeas) :
    ∀ (k i : ℕ) (h : i < (essFrames k fs).melbands.length),
      ((essFrames k fs).melbands.get ⟨i, h⟩).t = essT (k + i) := by
  induction fs with
  | nil => intro k i h; simp [essFrames] at h
  | cons f fs ih =>
    intro k i h
    cases i with
    | zero => simp [essFrames]
    | succ j =>
      have := ih (k + 1) j (by simpa [essFrames] using h)
      simpa [essFrames, Nat.add_assoc, Nat.add_comm 1 j] using this

lemma essFrames_bass_t (fs : List FrameMeas) :
    ∀ (k i : ℕ) (h : i < (essFrames k fs).bass.length),
      ((essFrames k fs).bass.get ⟨i, h⟩).t = essT (k + i) := by
  induction fs with
  | nil => intro k i h; simp [essFrames] at h
  | cons f fs ih =>
    intro k i h
    cases i with
    | zero => simp [essFrames]
    | succ j =>
      have := ih (k + 1) j (by simpa [essFrames] using h)
      simpa [essFrames, Nat.add_assoc, Nat.add_comm 1 j] using this

/-! ## Helper lemmas: every value the frame loop stores is in `[0, 1]` -/

lemma essFrames_loudness_mem_unit (k : ℕ) (fs : List FrameMeas) :
    ∀ r ∈ (essFrames k fs).loudness, 0 ≤ r.v ∧ r.v ≤ 1 := by
  induction fs generalizing k with
  | nil => simp [essFrames]
  | cons f fs ih =>
    intro r hr
    simp only [essFrames, List.mem_cons] at hr
    rcases hr with rfl | hr
    · exact round4r_mem_unit (loudNormRaw_mem_unit _).1 (loudNormRaw_mem_unit _).2
    · exact ih (k + 1) r hr

lemma essFrames_spectral_mem_unit (k : ℕ) (fs : List FrameMeas) :
    ∀ r ∈ (essFrames k fs).spectral, 0 ≤ r.c ∧ r.c ≤ 1 := by
  induction fs generalizing k with
  | nil => simp [essFrames]
  | cons f fs ih =>
    intro r hr
    simp only [essFrames, List.mem_cons] at hr
    rcases hr with rfl | hr
    · exact round4r_mem_unit (spectralCentroidNormalized_mem_unit _).1
        (spectralCentroidNormalized_mem_unit _).2
    · exact ih (k + 1) r hr

lemma essFrames_melbands_mem_unit (k : ℕ) (fs : List FrameMeas) :
    ∀ r ∈ (essFrames k fs).melbands, ∀ x ∈ r.bands, 0 ≤ x ∧ x ≤ 1 := by
  induction fs generalizing k with
  | nil => simp [essFrames]
  | cons f fs ih =>
    intro r hr
    simp only [essFrames, List.mem_cons] at hr
    rcases hr with rfl | hr
    · intro x hx
      simp only [List.mem_map] at hx
      obtain ⟨v, _, rfl⟩ := hx
      exact round4r_mem_unit (melNormRaw_mem_unit _).1 (melNormRaw_mem_unit _).2
    · exact ih (k + 1) r hr

lemma essFrames_bass_mem_unit (k : ℕ) (fs : List FrameMeas) :
    ∀ r ∈ (essFrames k fs).bass, 0 ≤ r.b ∧ r.b ≤ 1 := by
  induction fs generalizing k with
  | nil => simp [essFrames]
  | cons f fs ih =>
    intro r hr
    simp only [essFrames, List.mem_cons] at hr
    rcases hr with rfl | hr
    · have hmean : 0 ≤ listMean ((f.mels.map melNormRaw).take 2) ∧
          listMean ((f.mels.map melNormRaw).take 2) ≤ 1 := by
        apply listMean_mem_unit
        intro x hx
        have hx' : x ∈ f.mels.map melNormRaw := List.mem_of_mem_take hx
        simp only [List.mem_map] at hx'
        obtain ⟨v, _, rfl⟩ := hx'
        exact melNormRaw_mem_unit v
      exact round4r_mem_unit hmean.1 hmean.2
    · exact ih (k + 1) r hr

/-! ## Helper lemmas: every value the fallback generator stores is in `[0, 1]` -/

lemma fbLoudV_mem_unit (t : ℝ) : 0 ≤ fbLoudV t ∧ fbLoudV t ≤ 1 := by
  unfold fbLoudV
  have s1 := Real.neg_one_le_sin (t * (8/10))
  have s1' := Real.sin_le_one (t * (8/10))
  have s2 := Real.neg_one_le_sin (t * (31/10))
  have s2' := Real.sin_le_one (t * (31/10))
  exact round4r_mem_unit (by linarith) (by linarith)

lemma fbSpecC_mem_unit (t : ℝ) : 0 ≤ fbSpecC t ∧ fbSpecC t ≤ 1 := by
  unfold fbSpecC
  have s1 := Real.neg_one_le_sin (t * (5/10) + 12/10)
  have s1' := Real.sin_le_one (t * (5/10) + 12/10)
  exact round4r_mem_unit (by linarith) (by linarith)

lemma fbBassB_mem_unit (t : ℝ) : 0 ≤ fbBassB t ∧ fbBassB t ≤ 1 := by
  unfold fbBassB
  have s1 : 0 ≤ |Real.sin (t * Real.pi * 2)| := abs_nonneg _
  have s2 : |Real.sin (t * Real.pi * 2)| ≤ 1 := Real.abs_sin_le_one _
  exact round4r_mem_unit (by linarith) (by linarith)

lemma fbBand_mem_unit (t : ℝ) (k : ℕ) : 0 ≤ fbBand t k ∧ fbBand t k ≤ 1 := by
  unfold fbBand
  have s1 := Real.neg_one_le_sin (t * (4/10 + k * (15/100)) + k)
  have s1' := Real.sin_le_one (t * (4/10 + k * (15/100)) + k)
  exact round4r_mem_unit (by linarith) (by linarith)

/-! ## Concrete evaluations of `round4q` used by the counterexamples -/

lemma round4q_eval {x : ℚ} {f r : ℤ} (hf : ⌊x * 10000⌋ = f)
    (hne : x * 10000 - (f : ℚ) ≠ 1/2) (hr : ⌊x * 10000 + 1/2⌋ = r) :
    round4q x = (r : ℚ) / 10000 := by
  unfold round4q rheQ
  rw [← Int.self_sub_floor, hf, if_neg hne, round_eq, hr]

lemma essT_one : essT 1 = 83/5000 := by
  unfold essT
  rw [round4q_eval (f := 166) (r := 166)]
  · norm_num
  · rw [Int.floor_eq_iff]
    norm_num
  · norm_num
  · rw [Int.floor_eq_iff]
    norm_num

lemma round4q_one_div_sixty : round4q (1 / 60) = 167/10000 := by
  rw [round4q_eval (f := 166) (r := 167)]
  · norm_num
  · rw [Int.floor_eq_iff]
    norm_num
  · norm_num
  · rw [Int.floor_eq_iff]
    norm_num

/-! ## Structural lemmas for the fallback channels -/

lemma fallback_lengths (d : ℚ) :
    (fallback_analysis d).loudness.length = (⌊d * 60⌋).toNat ∧
    (fallback_analysis d).spectral.length = (⌊d * 60⌋).toNat ∧
    (fallback_analysis d).melbands.length = (⌊d * 60⌋).toNat ∧
    (fallback_analysis d).bass.length = (⌊d * 60⌋).toNat := by
  simp only [fallback_analysis, List.length_map, List.length_range]
  exact ⟨trivial, trivial, trivial, trivial⟩

lemma fallback_loudness_t (d : ℚ) (i : ℕ)
    (h : i < (fallback_analysis d).loudness.length) :
    ((fallback_analysis d).loudness.get ⟨i, h⟩).t = round4q (i / 60) := by
  simp only [fallback_analysis, List.get_eq_getElem, List.getElem_map, List.getElem_range]

lemma fallback_spectral_t (d : ℚ) (i : ℕ)
    (h : i < (fallback_analysis d).spectral.length) :
    ((fallback_analysis d).spectral.get ⟨i, h⟩).t = round4q (i / 60) := by
  simp only [fallback_analysis, List.get_eq_getElem, List.getElem_map, List.getElem_range]

lemma fallback_melbands_t (d : ℚ) (i : ℕ)
    (h : i < (fallback_analysis d).melbands.length) :
    ((fallback_analysis d).melbands.get ⟨i, h⟩).t = round4q (i / 60) := by
  simp only [fallback_analysis, List.get_eq_getElem, List.getElem_map, List.getElem_range]

lemma fallback_bass_t (d : ℚ) (i : ℕ)
    (h : i < (fallback_analysis d).bass.length) :
    ((fallback_analysis d).bass.get ⟨i, h⟩).t = round4q (i / 60) := by
  simp only [fallback_analysis, List.get_eq_getElem, List.getElem_map, List.getElem_range]

lemma fallback_len_one_div_thirty : (fallback_analysis (1/30)).loudness.length = 2 := by
  have h : ⌊((1 : ℚ)/30) * 60⌋ = 2 := by
    rw [Int.floor_eq_iff]
    norm_num
  rw [(fallback_lengths (1/30)).1, h]
  rfl

/-! ## Claim theorems -/

/-- C6. The fallback generator is deterministic: `_fallback_analysis` draws
on no randomness source (no `random`, no time, no I/O — src/main.py
335-362), so its embedding is a pure function of the duration alone, and
two calls with the same duration (in particular 240.0, the default) return
identical output. -/
theorem c6_fallback_deterministic :
    fallback_analysis 240 = fallback_analysis 240 ∧
    ∀ d : ℚ, fallback_analysis d = fallback_analysis d :=
  ⟨rfl, fun _ => rfl⟩

/-- C1 fails as stated: the code stores `round(t, 4)`, and in the real path
`t = i * int(22050/60) / 22050 = i * 367 / 22050`, not `i / 60`. At `i = 1`
the real path stores `0.0166 ≠ 1/60` and the synthetic path stores
`0.0167 ≠ 1/60`. Inputs: a two-frame Essentia run, and a synthetic duration
of `1/30` s (two hops). -/
theorem c1_counterexample :
    ((analyzeFrames ⟨[⟨0, 0, []⟩, ⟨0, 0, []⟩], 120, []⟩).loudness.get
        ⟨1, by simp [analyzeFrames, essFrames]⟩).t ≠ 1/60 ∧
    ((fallback_analysis (1/30)).loudness.get
        ⟨1, by rw [fallback_len_one_div_thirty]; norm_num⟩).t ≠ 1/60 := by
  constructor
  · show (⟨essT 1, round4r (loudNormRaw 0)⟩ : LoudRecord).t ≠ 1/60
    rw [show (⟨essT 1, round4r (loudNormRaw 0)⟩ : LoudRecord).t = essT 1 from rfl]
    rw [essT_one]
    norm_num
  · rw [fallback_loudness_t (1/30) 1]
    rw [show ((1 : ℕ) : ℚ) / 60 = 1/60 by norm_num]
    rw [round4q_one_div_sixty]
    norm_num

/-- C1 amended: for every timeline either path produces, the four per-hop
sequences have equal length (the frame count, resp. `int(60·d)`), and the
i-th record of each sequence carries `t = round(i·367/22050, 4)` in the
real path (`367 = int(22050/60)` samples of hop) and `t = round(i/60, 4)`
in the synthetic path. -/
theorem c1_amended_lengths_and_timestamps (run : EssentiaRun) (d : ℚ) :
    ((analyzeFrames run).loudness.length = run.frames.length ∧
     (analyzeFrames run).spectral.length = run.frames.length ∧
     (analyzeFrames run).melbands.length = run.frames.length ∧
     (analyzeFrames run).bass.length = run.frames.length) ∧
    (∀ (i : ℕ) (h : i < (analyzeFrames run).loudness.length),
        ((analyzeFrames run).loudness.get ⟨i, h⟩).t = round4q ((i * 367) / 22050)) ∧
    (∀ (i : ℕ) (h : i < (analyzeFrames run).spectral.length),
        ((analyzeFrames run).spectral.get ⟨i, h⟩).t = round4q ((i * 367) / 22050)) ∧
    (∀ (i : ℕ) (h : i < (analyzeFrames run).melbands.length),
        ((analyzeFrames run).melbands.get ⟨i, h⟩).t = round4q ((i * 367) / 22050)) ∧
    (∀ (i : ℕ) (h : i < (analyzeFrames run).bass.length),
        ((analyzeFrames run).bass.get ⟨i, h⟩).t = round4q ((i * 367) / 22050)) ∧
    ((fallback_analysis d).loudness.length = (⌊d * 60⌋).toNat ∧
     (fallback_analysis d).spectral.length = (⌊d * 60⌋).toNat ∧
     (fallback_analysis d).melbands.length = (⌊d * 60⌋).toNat ∧
     (fallback_analysis d).bass.length = (⌊d * 60⌋).toNat) ∧
    (∀ (i : ℕ) (h : i < (fallback_analysis d).loudness.length),
        ((fallback_analysis d).loudness.get ⟨i, h⟩).t = round4q (i / 60)) ∧
    (∀ (i : ℕ) (h : i < (fallback_analysis d).spectral.length),
        ((fallback_analysis d).spectral.get ⟨i, h⟩).t = round4q (i / 60)) ∧
    (∀ (i : ℕ) (h : i < (fallback_analysis d).melbands.length),
        ((fallback_analysis d).melbands.get ⟨i, h⟩).t = round4q (i / 60)) ∧
    (∀ (i : ℕ) (h : i < (fallback_analysis d).bass.length),
        ((fallback_analysis d).bass.get ⟨i, h⟩).t = round4q (i / 60)) := by
  refine ⟨?_, ?_, ?_, ?_, ?_, ?_, ?_, ?_, ?_, ?_⟩
  · simpa only [analyzeFrames] using essFrames_lengths 0 run.frames
  · intro i h
    have := essFrames_loudness_t run.frames 0 i (by simpa [analyzeFrames] using h)
    simpa [analyzeFrames, essT] using this
  · intro i h
    have := essFrames_spectral_t run.frames 0 i (by simpa [analyzeFrames] using h)
    simpa [analyzeFrames, essT] using this
  · intro i h
    have := essFrames_melbands_t run.frames 0 i (by simpa [analyzeFrames] using h)
    simpa [analyzeFrames, essT] using this
  · intro i h
    have := essFrames_bass_t run.frames 0 i (by simpa [analyzeFrames] using h)
    simpa [analyzeFrames, essT] using this
  · exact fallback_lengths d
  · intro i h
    exact fallback_loudness_t d i h
  · intro i h
    exact fallback_spectral_t d i h
  · intro i h
    exact fallback_melbands_t d i h
  · intro i h
    exact fallback_bass_t d i h

/-- Witness for the amended C1 at a concrete input: a one-frame run and a
two-hop synthetic duration, instantiated at index 0. -/
theorem c1_witness :
    ((analyzeFrames ⟨[⟨0, 0, []⟩], 120, []⟩).loudness.get
        ⟨0, by simp [analyzeFrames, essFrames]⟩).t = round4q ((0 * 367) / 22050) ∧
    ((fallback_analysis (1/30)).loudness.get
        ⟨0, by rw [fallback_len_one_div_thirty]; norm_num⟩).t = round4q ((0 : ℕ) / 60) := by
  constructor
  · exact (c1_amended_lengths_and_timestamps ⟨[⟨0, 0, []⟩], 120, []⟩ (1/30)).2.1 0 _
  · exact (c1_amended_lengths_and_timestamps ⟨[⟨0, 0, []⟩], 120, []⟩ (1/30)).2.2.2.2.2.2.1 0 _

/-- C4. Every normalized field of every record, in both the real and the
synthetic path, lies in `[0, 1]`: the loudness `v` and mel `bands` are
`tanh` of a clamped-nonnegative argument, the centroid `c` is the (spec-
modelled) clamped normalized centroid, the bass `b` is a mean of the two
lowest mel values, the synthetic values are bounded sinusoids, and
`round(x, 4)` keeps `[0, 1]` stable. -/
theorem c4_normalized_fields_in_unit (run : EssentiaRun) (d : ℚ) :
    (∀ r ∈ (analyzeFrames run).loudness, 0 ≤ r.v ∧ r.v ≤ 1) ∧
    (∀ r ∈ (analyzeFrames run).spectral, 0 ≤ r.c ∧ r.c ≤ 1) ∧
    (∀ r ∈ (analyzeFrames run).melbands, ∀ x ∈ r.bands, 0 ≤ x ∧ x ≤ 1) ∧
    (∀ r ∈ (analyzeFrames run).bass, 0 ≤ r.b ∧ r.b ≤ 1) ∧
    (∀ r ∈ (fallback_analysis d).loudness, 0 ≤ r.v ∧ r.v ≤ 1) ∧
    (∀ r ∈ (fallback_analysis d).spectral, 0 ≤ r.c ∧ r.c ≤ 1) ∧
    (∀ r ∈ (fallback_analysis d).melbands, ∀ x ∈ r.bands, 0 ≤ x ∧ x ≤ 1) ∧
    (∀ r ∈ (fallback_analysis d).bass, 0 ≤ r.b ∧ r.b ≤ 1) := by
  refine ⟨?_, ?_, ?_, ?_, ?_, ?_, ?_, ?_⟩
  · intro r hr
    exact essFrames_loudness_mem_unit 0 run.frames r hr
  · intro r hr
    exact essFrames_spectral_mem_unit 0 run.frames r hr
  · intro r hr
    exact essFrames_melbands_mem_unit 0 run.frames r hr
  · intro r hr
    exact essFrames_bass_mem_unit 0 run.frames r hr
  · intro r hr
    simp only [fallback_analysis, List.mem_map] at hr
    obtain ⟨i, _, rfl⟩ := hr
    exact fbLoudV_mem_unit _
  · intro r hr
    simp only [fallback_analysis, List.mem_map] at hr
    obtain ⟨i, _, rfl⟩ := hr
    exact fbSpecC_mem_unit _
  · intro r hr
    simp only [fallback_analysis, List.mem_map] at hr
    obtain ⟨i, _, rfl⟩ := hr
    intro x hx
    simp only [List.mem_map] at hx
    obtain ⟨k, _, rfl⟩ := hx
    exact fbBand_mem_unit _ _
  · intro r hr
    simp only [fallback_analysis, List.mem_map] at hr
    obtain ⟨i, _, rfl⟩ := hr
    exact fbBassB_mem_unit _

/-- Witness for C4: the loudness record of a one-frame run with 0 dB input,
and the first synthetic loudness record of a `1/30` s fallback timeline. -/
theorem c4_witness :
    (0 ≤ ((analyzeFrames ⟨[⟨0, 0, []⟩], 120, []⟩).loudness.get
        ⟨0, by simp [analyzeFrames, essFrames]⟩).v ∧
      ((analyzeFrames ⟨[⟨0, 0, []⟩], 120, []⟩).loudness.get
        ⟨0, by simp [analyzeFrames, essFrames]⟩).v ≤ 1) ∧
    (0 ≤ ((fallback_analysis (1/30)).loudness.get
        ⟨0, by rw [fallback_len_one_div_thirty]; norm_num⟩).v ∧
      ((fallback_analysis (1/30)).loudness.get
        ⟨0, by rw [fallback_len_one_div_thirty]; norm_num⟩).v ≤ 1) := by
  constructor
  · exact (c4_normalized_fields_in_unit ⟨[⟨0, 0, []⟩], 120, []⟩ (1/30)).1 _
      (List.get_mem _ _ _)
  · exact (c4_normalized_fields_in_unit ⟨[⟨0, 0, []⟩], 120, []⟩ (1/30)).2.2.2.2.1 _
      (List.get_mem _ _ _)

/-! ## Branch lemmas for the `/audio_analysis` orchestration -/

lemma cacheLookup_insert_self (c : Cache) (k : String) (v : Timeline) :
    cacheLookup (cacheInsert c k v) k = some v := by
  simp [cacheInsert, cacheLookup]

lemma audio_analysis_no_vid (env : AnalysisEnv) (param : Option String)
    (cache : Cache) (h : resolveVid param (dbVid env.db) = none) :
    audio_analysis env param cache = ⟨.ok (fallback_analysis 240), cache, none, true⟩ := by
  unfold audio_analysis
  rw [h]

lemma audio_analysis_hit (env : AnalysisEnv) (param : Option String)
    (cache : Cache) (v : String) (r : Timeline)
    (hres : resolveVid param (dbVid env.db) = some v)
    (hhit : cacheLookup cache v = some r) :
    audio_analysis env param cache = ⟨.ok r, cache, none, false⟩ := by
  unfold audio_analysis
  simp only [hres, hhit]

lemma audio_analysis_success (env : AnalysisEnv) (param : Option String)
    (cache : Cache) (v : String) (r : Timeline)
    (hres : resolveVid param (dbVid env.db) = some v)
    (hmiss : cacheLookup cache v = none)
    (hb : backendsPresent env = true)
    (hd : download_audio env.ytdlpPresent env.child = true)
    (hae : analyze_with_essentia env.essentiaAvailable env.numpyAvailable
      env.wavSizeMB env.essentiaRaises env.run = .ok r) :
    audio_analysis env param cache = ⟨.ok r, cacheInsert cache v r, some v, true⟩ := by
  unfold audio_analysis
  unfold backendsPresent at hb
  simp only [hres, hmiss, hb, hd, hae, if_true]

lemma audio_analysis_essentia_fail (env : AnalysisEnv) (param : Option String)
    (cache : Cache) (v : String)
    (hres : resolveVid param (dbVid env.db) = some v)
    (hmiss : cacheLookup cache v = none)
    (hb : backendsPresent env = true)
    (hd : download_audio env.ytdlpPresent env.child = true)
    (hae : analyze_with_essentia env.essentiaAvailable env.numpyAvailable
      env.wavSizeMB env.essentiaRaises env.run = .error ()) :
    audio_analysis env param cache =
      ⟨.ok (fallback_analysis 240),
        cacheInsert cache v (fallback_analysis 240), some v, true⟩ := by
  unfold audio_analysis
  unfold backendsPresent at hb
  simp only [hres, hmiss, hb, hd, hae, if_true]

lemma audio_analysis_download_fail (env : AnalysisEnv) (param : Option String)
    (cache : Cache) (v : String)
    (hres : resolveVid param (dbVid env.db) = some v)
    (hmiss : cacheLookup cache v = none)
    (hb : backendsPresent env = true)
    (hd : download_audio env.ytdlpPresent env.child = false) :
    audio_analysis env param cache =
      ⟨.ok (fallback_analysis 240),
        cacheInsert cache v (fallback_analysis 240), some v, true⟩ := by
  unfold audio_analysis
  unfold backendsPresent at hb
  simp only [hres, hmiss, hb, hd, if_true, Bool.false_eq_true, if_false]

lemma audio_analysis_no_backend (env : AnalysisEnv) (param : Option String)
    (cache : Cache) (v : String)
    (hres : resolveVid param (dbVid env.db) = some v)
    (hmiss : cacheLookup cache v = none)
    (hb : backendsPresent env = false) :
    audio_analysis env param cache =
      ⟨.ok (fallback_analysis 240),
        cacheInsert cache v (fallback_analysis 240), none, true⟩ := by
  unfold audio_analysis
  unfold backendsPresent at hb
  simp only [hres, hmiss, hb, Bool.false_eq_true, if_false]

lemma audio_analysis_resultOk (env : AnalysisEnv) (param : Option String)
    (cache : Cache) : resultOk (audio_analysis env param cache).result = true := by
  cases hres : resolveVid param (dbVid env.db) with
  | none =>
    rw [audio_analysis_no_vid env param cache hres]
    rfl
  | some v =>
    cases hhit : cacheLookup cache v with
    | some r =>
      rw [audio_analysis_hit env param cache v r hres hhit]
      rfl
    | none =>
      cases hb : backendsPresent env with
      | false =>
        rw [audio_analysis_no_backend env param cache v hres hhit hb]
        rfl
      | true =>
        cases hd : download_audio env.ytdlpPresent env.child with
        | false =>
          rw [audio_analysis_download_fail env param cache v hres hhit hb hd]
          rfl
        | true =>
          cases hae : analyze_with_essentia env.essentiaAvailable env.numpyAvailable
              env.wavSizeMB env.essentiaRaises env.run with
          | ok r =>
            rw [audio_analysis_success env param cache v r hres hhit hb hd hae]
            rfl
          | error e =>
            cases e
            rw [audio_analysis_essentia_fail env param cache v hres hhit hb hd hae]
            rfl

/-- C3. Past authentication, `/audio_analysis` always answers with some
timeline: no branch raises an HTTP error, an absent source id goes straight
to `_fallback_analysis()`, and on a cache miss every failure of the real
path — missing backend (Essentia/NumPy/yt-dlp), download failure, or an
analysis exception (including the DB lookup failing, which only makes the
id absent) — yields the synthetic fallback timeline. -/
theorem c3_analysis_always_succeeds (env : AnalysisEnv) (param : Option String)
    (cache : Cache) :
    resultOk (audio_analysis env param cache).result = true ∧
    (resolveVid param (dbVid env.db) = none →
      (audio_analysis env param cache).result = .ok (fallback_analysis 240)) ∧
    (∀ v, resolveVid param (dbVid env.db) = some v →
      cacheLookup cache v = none →
      (backendsPresent env = false ∨
        download_audio env.ytdlpPresent env.child = false ∨
        analyze_with_essentia env.essentiaAvailable env.numpyAvailable
          env.wavSizeMB env.essentiaRaises env.run = .error ()) →
      (audio_analysis env param cache).result = .ok (fallback_analysis 240)) := by
  refine ⟨audio_analysis_resultOk env param cache, ?_, ?_⟩
  · intro h
    rw [audio_analysis_no_vid env param cache h]
  · intro v hres hmiss hfail
    cases hb : backendsPresent env with
    | false => rw [audio_analysis_no_backend env param cache v hres hmiss hb]
    | true =>
      cases hd : download_audio env.ytdlpPresent env.child with
      | false => rw [audio_analysis_download_fail env param cache v hres hmiss hb hd]
      | true =>
        rcases hfail with hb' | hd' | hae
        · rw [hb] at hb'
          exact absurd hb' (by simp)
        · rw [hd] at hd'
          exact absurd hd' (by simp)
        · rw [audio_analysis_essentia_fail env param cache v hres hmiss hb hd hae]

/-- Witness for C3: no backends, no DB, a fresh cache, and an explicit id:
the endpoint answers with the synthetic fallback timeline. -/
theorem c3_witness :
    (audio_analysis ⟨false, false, false, .raised, .timedOut, 0, false, ⟨[], 0, []⟩⟩
        (some "dQw4w9WgXcQ") []).result = .ok (fallback_analysis 240) :=
  (c3_analysis_always_succeeds
    ⟨false, false, false, .raised, .timedOut, 0, false, ⟨[], 0, []⟩⟩
    (some "dQw4w9WgXcQ") []).2.2 "dQw4w9WgXcQ" rfl rfl (Or.inl rfl)

/-- C5. For a source id not yet in the cache, the first completed
`/audio_analysis` request stores its (real or fallback) timeline under the
id, and a second request with the same id is answered verbatim from the
cache — identical content, no recomputation (`computed = false`), no
download — whatever the environment of the second request is. -/
theorem c5_first_call_caches_second_call_serves (env1 env2 : AnalysisEnv)
    (cache : Cache) (v : String) (hv : v ≠ "")
    (hmiss : cacheLookup cache v = none) :
    ∃ tl, (audio_analysis env1 (some v) cache).result = .ok tl ∧
      cacheLookup (audio_analysis env1 (some v) cache).cacheOut v = some tl ∧
      audio_analysis env2 (some v) (audio_analysis env1 (some v) cache).cacheOut =
        ⟨.ok tl, (audio_analysis env1 (some v) cache).cacheOut, none, false⟩ := by
  have hres1 : resolveVid (some v) (dbVid env1.db) = some v := by
    simp [resolveVid, hv]
  have hres2 : resolveVid (some v) (dbVid env2.db) = some v := by
    simp [resolveVid, hv]
  cases hb : backendsPresent env1 with
  | false =>
    rw [audio_analysis_no_backend env1 (some v) cache v hres1 hmiss hb]
    exact ⟨fallback_analysis 240, rfl, cacheLookup_insert_self cache v _,
      audio_analysis_hit env2 (some v) _ v _ hres2 (cacheLookup_insert_self cache v _)⟩
  | true =>
    cases hd : download_audio env1.ytdlpPresent env1.child with
    | false =>
      rw [audio_analysis_download_fail env1 (some v) cache v hres1 hmiss hb hd]
      exact ⟨fallback_analysis 240, rfl, cacheLookup_insert_self cache v _,
        audio_analysis_hit env2 (some v) _ v _ hres2 (cacheLookup_insert_self cache v _)⟩
    | true =>
      cases hae : analyze_with_essentia env1.essentiaAvailable env1.numpyAvailable
          env1.wavSizeMB env1.essentiaRaises env1.run with
      | ok r =>
        rw [audio_analysis_success env1 (some v) cache v r hres1 hmiss hb hd hae]
        exact ⟨r, rfl, cacheLookup_insert_self cache v _,
          audio_analysis_hit env2 (some v) _ v _ hres2 (cacheLookup_insert_self cache v _)⟩
      | error e =>
        cases e
        rw [audio_analysis_essentia_fail env1 (some v) cache v hres1 hmiss hb hd hae]
        exact ⟨fallback_analysis 240, rfl, cacheLookup_insert_self cache v _,
          audio_analysis_hit env2 (some v) _ v _ hres2 (cacheLookup_insert_self cache v _)⟩

/-- Witness for C5 at a concrete input: empty cache, no backends, two
sequential requests for `dQw4w9WgXcQ`. -/
theorem c5_witness :
    ∃ tl, (audio_analysis ⟨false, false, false, .raised, .timedOut, 0, false, ⟨[], 0, []⟩⟩
        (some "dQw4w9WgXcQ") []).result = .ok tl ∧
      cacheLookup (audio_analysis ⟨false, false, false, .raised, .timedOut, 0, false, ⟨[], 0, []⟩⟩
        (some "dQw4w9WgXcQ") []).cacheOut "dQw4w9WgXcQ" = some tl ∧
      audio_analysis ⟨true, true, true, .raised, .completed 0 true, 0, false, ⟨[], 0, []⟩⟩
          (some "dQw4w9WgXcQ")
          (audio_analysis ⟨false, false, false, .raised, .timedOut, 0, false, ⟨[], 0, []⟩⟩
            (some "dQw4w9WgXcQ") []).cacheOut =
        ⟨.ok tl, (audio_analysis ⟨false, false, false, .raised, .timedOut, 0, false, ⟨[], 0, []⟩⟩
          (some "dQw4w9WgXcQ") []).cacheOut, none, false⟩ :=
  c5_first_call_caches_second_call_serves
    ⟨false, false, false, .raised, .timedOut, 0, false, ⟨[], 0, []⟩⟩
    ⟨true, true, true, .raised, .completed 0 true, 0, false, ⟨[], 0, []⟩⟩
    [] "dQw4w9WgXcQ" (by decide) rfl

/-- C9. When the real path fails on a cache miss — the download fails or
the analysis raises, backends present — the synthetic fallback timeline is
stored under the id, and every subsequent request for that id (in any
environment, even one in which real analysis would succeed) is served that
synthetic timeline from the cache, with no download and no recomputation,
until the process restarts (the cache has no eviction). -/
theorem c9_failed_analysis_pins_fallback (env : AnalysisEnv) (cache : Cache)
    (v : String) (hv : v ≠ "") (hmiss : cacheLookup cache v = none)
    (hb : backendsPresent env = true)
    (hfail : download_audio env.ytdlpPresent env.child = false ∨
      analyze_with_essentia env.essentiaAvailable env.numpyAvailable
        env.wavSizeMB env.essentiaRaises env.run = .error ()) :
    (audio_analysis env (some v) cache).result = .ok (fallback_analysis 240) ∧
    cacheLookup (audio_analysis env (some v) cache).cacheOut v =
      some (fallback_analysis 240) ∧
    ∀ env2, audio_analysis env2 (some v) (audio_analysis env (some v) cache).cacheOut =
      ⟨.ok (fallback_analysis 240),
        (audio_analysis env (some v) cache).cacheOut, none, false⟩ := by
  have hres : resolveVid (some v) (dbVid env.db) = some v := by
    simp [resolveVid, hv]
  have hkey : audio_analysis env (some v) cache =
      ⟨.ok (fallback_analysis 240),
        cacheInsert cache v (fallback_analysis 240), some v, true⟩ := by
    cases hd : download_audio env.ytdlpPresent env.child with
    | false => exact audio_analysis_download_fail env (some v) cache v hres hmiss hb hd
    | true =>
      rcases hfail with hd' | hae
      · rw [hd] at hd'
        exact absurd hd' (by simp)
      · exact audio_analysis_essentia_fail env (some v) cache v hres hmiss hb hd hae
  rw [hkey]
  refine ⟨rfl, cacheLookup_insert_self cache v _, ?_⟩
  intro env2
  have hres2 : resolveVid (some v) (dbVid env2.db) = some v := by
    simp [resolveVid, hv]
  exact audio_analysis_hit env2 (some v) _ v _ hres2 (cacheLookup_insert_self cache v _)

/-- Witness for C9: backends present, download fails (child timed out),
empty cache; the second environment has a successful child. -/
theorem c9_witness :
    (audio_analysis ⟨true, true, true, .raised, .timedOut, 0, false, ⟨[], 0, []⟩⟩
        (some "dQw4w9WgXcQ") []).result = .ok (fallback_analysis 240) :=
  (c9_failed_analysis_pins_fallback
    ⟨true, true, true, .raised, .timedOut, 0, false, ⟨[], 0, []⟩⟩
    [] "dQw4w9WgXcQ" (by decide) rfl rfl (Or.inl rfl)).1

/-! ## Lemmas about the extraction patterns -/

lemma take11Ok_some {s v : List Char} (h : take11Ok s = some v) :
    v.length = 11 ∧ v.all ytChar = true := by
  unfold take11Ok at h
  split at h
  · rename_i hc
    cases h
    simp only [Bool.and_eq_true, decide_eq_true_eq] at hc
    exact ⟨hc.1, hc.2⟩
  · exact Option.noConfusion h

lemma matchP1At_some {s v : List Char} (h : matchP1At s = some v) :
    v.length = 11 ∧ v.all ytChar = true := by
  rcases s with _ | ⟨c, rest⟩
  · exact Option.noConfusion h
  · simp only [matchP1At] at h
    by_cases hc : (c == 'v' && headIsEq rest) = true
    · rw [if_pos hc] at h
      exact take11Ok_some h
    · rw [if_neg hc] at h
      by_cases hs : (c == '/') = true
      · rw [if_pos hs] at h
        exact take11Ok_some h
      · rw [if_neg hs] at h
        exact Option.noConfusion h

lemma matchLitAt_some (lit : List Char) {s v : List Char}
    (h : matchLitAt lit s = some v) : v.length = 11 ∧ v.all ytChar = true := by
  unfold matchLitAt at h
  split at h
  · exact take11Ok_some h
  · exact Option.noConfusion h

lemma reSearch_some {f : List Char → Option (List Char)}
    (hf : ∀ t v, f t = some v → v.length = 11 ∧ v.all ytChar = true) :
    ∀ s v, reSearch f s = some v → v.length = 11 ∧ v.all ytChar = true := by
  intro s
  induction s with
  | nil =>
    intro v h
    exact Option.noConfusion h
  | cons c t ih =>
    intro v h
    unfold reSearch at h
    cases hft : f (c :: t) with
    | some u =>
      simp only [hft] at h
      cases h
      exact hf _ _ hft
    | none =>
      simp only [hft] at h
      exact ih v h

lemma extract_some_shape :
    ∀ s v, extract_youtube_id s = some v → v.length = 11 ∧ v.all ytChar = true := by
  intro s v h
  unfold extract_youtube_id at h
  cases h1 : reSearch matchP1At s with
  | some u =>
    simp only [h1] at h
    cases h
    exact reSearch_some (fun _ _ => matchP1At_some) s _ h1
  | none =>
    simp only [h1] at h
    cases h2 : reSearch (matchLitAt ("embed/".toList)) s with
    | some u =>
      simp only [h2] at h
      cases h
      exact reSearch_some (fun _ _ => matchLitAt_some _) s _ h2
    | none =>
      simp only [h2] at h
      cases h3 : reSearch (matchLitAt ("youtu.be/".toList)) s with
      | some u =>
        simp only [h3] at h
        cases h
        exact reSearch_some (fun _ _ => matchLitAt_some _) s _ h3
      | none =>
        simp only [h3] at h
        exact reSearch_some (fun _ _ => matchLitAt_some _) s _ h

lemma matchP1At_none_of_raw {s : List Char} (h1 : hasSlash s = false)
    (h2 : hasVEq s = false) : matchP1At s = none := by
  rcases s with _ | ⟨c, rest⟩
  · rfl
  · simp only [hasSlash, Bool.or_eq_false_iff] at h1
    simp only [hasVEq, Bool.or_eq_false_iff] at h2
    simp only [matchP1At]
    rw [if_neg (by simp [h2.1]), if_neg (by simp [h1.1])]

lemma reSearch_matchP1At_none :
    ∀ s, hasSlash s = false → hasVEq s = false → reSearch matchP1At s = none := by
  intro s
  induction s with
  | nil =>
    intro _ _
    rfl
  | cons c t ih =>
    intro h1 h2
    have h1' : hasSlash t = false := by
      simp only [hasSlash, Bool.or_eq_false_iff] at h1
      exact h1.2
    have h2' : hasVEq t = false := by
      simp only [hasVEq, Bool.or_eq_false_iff] at h2
      exact h2.2
    simp only [reSearch, matchP1At_none_of_raw h1 h2]
    exact ih h1' h2'

lemma startsWithLit_hasSlash :
    ∀ lit s : List Char, hasSlash lit = true → startsWithLit lit s = true →
      hasSlash s = true := by
  intro lit
  induction lit with
  | nil =>
    intro s h _
    exact Bool.noConfusion h
  | cons a as ih =>
    intro s hl hs
    rcases s with _ | ⟨b, bs⟩
    · simp [startsWithLit] at hs
    · simp only [startsWithLit, Bool.and_eq_true] at hs
      simp only [hasSlash, Bool.or_eq_true] at hl ⊢
      rcases hl with ha | has
      · left
        have hab : a = b := by simpa using hs.1
        have ha' : a = '/' := by simpa using ha
        simp [← hab, ha']
      · right
        exact ih bs has hs.2

lemma matchLitAt_none_no_slash (lit : List Char) {s : List Char}
    (hl : hasSlash lit = true) (hs : hasSlash s = false) :
    matchLitAt lit s = none := by
  have hne : ¬(startsWithLit lit s = true) := by
    intro hc
    rw [startsWithLit_hasSlash lit s hl hc] at hs
    exact Bool.noConfusion hs
  unfold matchLitAt
  rw [if_neg hne]

lemma reSearch_matchLitAt_none (lit : List Char) (hl : hasSlash lit = true) :
    ∀ s, hasSlash s = false → reSearch (matchLitAt lit) s = none := by
  intro s
  induction s with
  | nil =>
    intro _
    rfl
  | cons c t ih =>
    intro hs
    have hs' : hasSlash t = false := by
      simp only [hasSlash, Bool.or_eq_false_iff] at hs
      exact hs.2
    simp only [reSearch, matchLitAt_none_no_slash lit hl hs]
    exact ih hs'

lemma extract_none_of_raw {s : List Char} (h1 : hasSlash s = false)
    (h2 : hasVEq s = false) : extract_youtube_id s = none := by
  unfold extract_youtube_id
  rw [reSearch_matchP1At_none s h1 h2,
    reSearch_matchLitAt_none ("embed/".toList) (by decide) s h1,
    reSearch_matchLitAt_none ("youtu.be/".toList) (by decide) s h1,
    reSearch_matchLitAt_none ("shorts/".toList) (by decide) s h1]

/-- C7. The resolver applies its ordered extraction patterns and any
successful extraction is an 11-character `[0-9A-Za-z_-]` token; an input
matching no pattern — in particular any raw identifier, i.e. a bare token
containing neither `/` nor `v=`, whether or not it passes the strict
11-character check — makes `save_song` fail with HTTP 400 (InvalidReference);
`"https://x/watch?v=dQw4w9WgXcQ"` resolves to `"dQw4w9WgXcQ"` and
`"not a url"` is rejected with 400. -/
theorem c7_source_resolver_contract :
    extract_youtube_id ("https://x/watch?v=dQw4w9WgXcQ".toList) =
      some ("dQw4w9WgXcQ".toList) ∧
    save_song ("not a url".toList) = .error 400 ∧
    (∀ s v, extract_youtube_id s = some v → v.length = 11 ∧ v.all ytChar = true) ∧
    (∀ s, extract_youtube_id s = none → save_song s = .error 400) ∧
    (∀ s, hasSlash s = false → hasVEq s = false → save_song s = .error 400) := by
  refine ⟨by decide, rfl, extract_some_shape, ?_, ?_⟩
  · intro s h
    unfold save_song
    rw [h]
  · intro s h1 h2
    unfold save_song
    rw [extract_none_of_raw h1 h2]

/-- Witness for C7: the extracted id from the example URL is an
11-character class token, and the raw identifier `"dQw4w9WgXc"` (10
characters, failing the strict check) is rejected with 400. -/
theorem c7_witness :
    (("dQw4w9WgXcQ".toList).length = 11 ∧
      ("dQw4w9WgXcQ".toList).all ytChar = true) ∧
    save_song ("dQw4w9WgXc".toList) = .error 400 ∧
    save_song ("%%%".toList) = .error 400 :=
  ⟨c7_source_resolver_contract.2.2.1 ("https://x/watch?v=dQw4w9WgXcQ".toList)
      ("dQw4w9WgXcQ".toList) (by decide),
   c7_source_resolver_contract.2.2.2.2 ("dQw4w9WgXc".toList) (by decide) (by decide),
   c7_source_resolver_contract.2.2.2.1 ("%%%".toList) (by decide)⟩

/-- C10. `/audio_analysis` never validates the `youtube_id` parameter:
every non-empty string is accepted (no 400 is possible), becomes the cache
key verbatim, and is the exact id handed to `_download_audio` (and spliced
verbatim into the yt-dlp URL argument) — whereas `/stream` rejects any id
failing its strict 11-character pattern with HTTP 400 (given a valid
token, which is checked first). -/
theorem c10_analysis_accepts_any_id_stream_validates (s : String)
    (env : AnalysisEnv) (cache : Cache) (hs : s ≠ "") :
    resultOk (audio_analysis env (some s) cache).result = true ∧
    (cacheLookup cache s = none →
      ∃ tl, cacheLookup (audio_analysis env (some s) cache).cacheOut s = some tl) ∧
    (cacheLookup cache s = none → backendsPresent env = true →
      (audio_analysis env (some s) cache).downloadedId = some s) ∧
    (∀ out, ("https://www.youtube.com/watch?v=".toList ++ s.toList) ∈
      downloadArgs s.toList out) ∧
    (∀ (senv : StreamEnv) (id : List Char), senv.tokenValid = true →
      validFormat id = false → stream_audio senv id = .httpError 400) := by
  have hres : resolveVid (some s) (dbVid env.db) = some s := by
    simp [resolveVid, hs]
  refine ⟨audio_analysis_resultOk env (some s) cache, ?_, ?_, ?_, ?_⟩
  · intro hmiss
    cases hb : backendsPresent env with
    | false =>
      rw [audio_analysis_no_backend env (some s) cache s hres hmiss hb]
      exact ⟨_, cacheLookup_insert_self cache s _⟩
    | true =>
      cases hd : download_audio env.ytdlpPresent env.child with
      | false =>
        rw [audio_analysis_download_fail env (some s) cache s hres hmiss hb hd]
        exact ⟨_, cacheLookup_insert_self cache s _⟩
      | true =>
        cases hae : analyze_with_essentia env.essentiaAvailable env.numpyAvailable
            env.wavSizeMB env.essentiaRaises env.run with
        | ok r =>
          rw [audio_analysis_success env (some s) cache s r hres hmiss hb hd hae]
          exact ⟨_, cacheLookup_insert_self cache s _⟩
        | error e =>
          cases e
          rw [audio_analysis_essentia_fail env (some s) cache s hres hmiss hb hd hae]
          exact ⟨_, cacheLookup_insert_self cache s _⟩
  · intro hmiss hb
    cases hd : download_audio env.ytdlpPresent env.child with
    | false =>
      rw [audio_analysis_download_fail env (some s) cache s hres hmiss hb hd]
    | true =>
      cases hae : analyze_with_essentia env.essentiaAvailable env.numpyAvailable
          env.wavSizeMB env.essentiaRaises env.run with
      | ok r =>
        rw [audio_analysis_success env (some s) cache s r hres hmiss hb hd hae]
      | error e =>
        cases e
        rw [audio_analysis_essentia_fail env (some s) cache s hres hmiss hb hd hae]
  · intro out
    simp [downloadArgs]
  · intro senv id ht hvf
    simp [stream_audio, ht, hvf]

/-- Witness for C10: the malformed id `"not a url"` is accepted by
`/audio_analysis` and cached under itself, while `/stream` rejects the same
id with 400. -/
theorem c10_witness :
    resultOk (audio_analysis
      ⟨false, false, false, .raised, .timedOut, 0, false, ⟨[], 0, []⟩⟩
      (some "not a url") []).result = true ∧
    stream_audio ⟨true, false, none, .timedOut, []⟩ ("not a url".toList) =
      .httpError 400 :=
  ⟨(c10_analysis_accepts_any_id_stream_validates "not a url"
      ⟨false, false, false, .raised, .timedOut, 0, false, ⟨[], 0, []⟩⟩
      [] (by decide)).1,
   (c10_analysis_accepts_any_id_stream_validates "not a url"
      ⟨false, false, false, .raised, .timedOut, 0, false, ⟨[], 0, []⟩⟩
      [] (by decide)).2.2.2.2 ⟨true, false, none, .timedOut, []⟩
      ("not a url".toList) rfl (by decide)⟩

/-- C8 fails as stated: `_download_audio` applies no declared-duration
ceiling at all. A source whose metadata declares 481 s — over the claimed
8-minute bound — is downloaded in full and accepted whenever yt-dlp is
present and the child succeeds, and the exact flag list it builds contains
a size cap (`--max-filesize 50m`) and no duration-limiting flag. -/
theorem c8_counterexample :
    (8 * 60 < (481 : ℚ)) ∧
    acquire true ⟨481, .completed 0 true⟩ = true ∧
    downloadArgs ("dQw4w9WgXcQ".toList) ("/tmp/a.wav".toList) =
      [ "yt-dlp".toList
      , "https://www.youtube.com/watch?v=dQw4w9WgXcQ".toList
      , "--extract-audio".toList
      , "--audio-format".toList, "wav".toList
      , "--audio-quality".toList, "5".toList
      , "--postprocessor-args".toList, "ffmpeg:-ar 22050 -ac 1".toList
      , "--output".toList, "/tmp/a.wav".toList
      , "--no-playlist".toList
      , "--no-cache-dir".toList
      , "--no-check-certificates".toList
      , "--quiet".toList
      , "--max-filesize".toList, "50m".toList ] := by
  refine ⟨by norm_num, rfl, by decide⟩

/-- C8 amended: the acquirer bounds the output only through the
`--max-filesize 50m` flag of the child itself (plus the 120 s wall clock);
its accept decision depends solely on yt-dlp presence and the child exit
status — never on
the declared duration — and the output-size re-validation (the 45 MB
guard) is performed later by the analyzer, not by the acquirer. -/
theorem c8_amended_size_cap_no_duration_ceiling (p : Bool) (s s' : SourceMeta)
    (hc : s.child = s'.child) :
    acquire p s = acquire p s' ∧
    (acquire p s = true ↔ p = true ∧ s.child = .completed 0 true) ∧
    (∀ vid out, "--max-filesize".toList ∈ downloadArgs vid out ∧
      "50m".toList ∈ downloadArgs vid out) ∧
    (∀ (ea na : Bool) (sz : ℚ) (rr : Bool) (run : EssentiaRun), 45 < sz →
      analyze_with_essentia ea na sz rr run = .error ()) := by
  refine ⟨by unfold acquire; rw [hc], ?_, ?_, ?_⟩
  · cases p with
    | false => simp [acquire, download_audio]
    | true =>
      cases hchild : s.child with
      | timedOut => simp [acquire, download_audio, hchild]
      | raised => simp [acquire, download_audio, hchild]
      | completed rc ex =>
        simp [acquire, download_audio, hchild, Bool.and_eq_true, beq_iff_eq]
  · intro vid out
    constructor
    · simp [downloadArgs]
    · simp [downloadArgs]
  · intro ea na sz rr run hsz
    simp [analyze_with_essentia, hsz]

/-- Witness for C8 amended: declared durations 481 s and 100 s with the
same child behaviour acquire identically, and a 46 MB WAV makes the
analyzer raise. -/
theorem c8_witness :
    acquire true ⟨481, .timedOut⟩ = acquire true ⟨100, .timedOut⟩ ∧
    analyze_with_essentia true true 46 false ⟨[], 0, []⟩ = .error () :=
  ⟨(c8_amended_size_cap_no_duration_ceiling true ⟨481, .timedOut⟩
      ⟨100, .timedOut⟩ rfl).1,
   (c8_amended_size_cap_no_duration_ceiling true ⟨481, .timedOut⟩
      ⟨100, .timedOut⟩ rfl).2.2.2 true true 46 false ⟨[], 0, []⟩ (by norm_num)⟩

/-- C2 is what the file-header documentation promises (`raise an exception
that FastAPI converts to a 502`), but the code does something else: on
first-chunk timeout `audio_generator` silently `return`s (src/main.py 774)
after `StreamingResponse` was already constructed with its default status
200 (src/main.py 815-819) — so a valid, well-formed request whose child
produces no bytes within the 12 s window is answered with HTTP 200 and a
zero-byte body, never with a 502 failure signal. -/
theorem c2_first_chunk_timeout_yields_empty_200 :
    stream_audio ⟨true, true, none, .timedOut, []⟩ ("dQw4w9WgXcQ".toList) =
      .response 200 ("audio/webm".toList) [] ∧
    ∀ code : ℕ, stream_audio ⟨true, true, none, .timedOut, []⟩
      ("dQw4w9WgXcQ".toList) ≠ .httpError code := by
  have h1 : stream_audio ⟨true, true, none, .timedOut, []⟩ ("dQw4w9WgXcQ".toList) =
      .response 200 ("audio/webm".toList) [] := by decide
  refine ⟨h1, fun code h => ?_⟩
  rw [h1] at h
  exact StreamResult.noConfusion h

end OneSong
